import Mathlib

/- Verification development for the reactive orchestration core of a terminal
dashboard that watches a source file and drives a four-stage external
compilation pipeline (translate / optimize / analyze / test).

Shallow embedding of src/main.rs:

* `AppState` mirrors `struct App`, field for field.
* One pipeline run's external tool invocations are abstracted by a `ToolEnv`
  record giving each tool's exit status, captured stdout and captured stderr;
  the optimizer's outcome may depend on the `--top` entry name it is given.
  `run_conversion` is a direct transcription of `App::run_conversion`,
  returning the new state together with the list of stages whose external
  tool was actually invoked during the run.
* The entry-point extraction regex `(?m)^fn (\w+)` is modelled line by line:
  `splitLines` cuts the character list at newline characters (the multiline
  anchor `^` matches exactly at the start of the text and after each newline)
  and `captureFn` matches a line that begins with the literal characters
  `f`, `n`, space followed by a non-empty run of word characters, returning
  that run.  The regex class `\w` is modelled as ASCII alphanumeric or
  underscore.
* The event loop of `main` is modelled by `step`, one state transition per
  processed file-change or keyboard event (each event carries the `ToolEnv`
  describing the external tools' behaviour at the time it is handled), and
  `runEvents` folds a list of events from the startup state `initState`,
  which performs the initial `check_and_run_conversion` exactly as `main`
  does before entering the loop.
* `startup_ok` models the required-binary validation performed by `main`
  before the loop starts: it succeeds exactly when every name listed in
  `required_binaries` is present in the tools directory.
-/

/-- Model of the regex character class `\w` (restricted to ASCII):
alphanumeric or underscore. -/
def isWordChar (c : Char) : Bool := c.isAlphanum || c = '_'

/-- Cut a character list at newline characters.  This reproduces the places
where the multiline anchor `^` of regex `(?m)^fn (\w+)` can match: the start
of the text and the position just after every newline. -/
def splitLines : List Char → List (List Char)
  | [] => [[]]
  | c :: cs =>
    if c = '\n' then [] :: splitLines cs
    else
      match splitLines cs with
      | [] => [[c]]
      | l :: ls => (c :: l) :: ls

/-- Model of one attempted match of `fn (\w+)` anchored at the start of a
line: the literal characters `f`, `n`, space, then a non-empty run of word
characters, which is the captured group. -/
def captureFn : List Char → Option String
  | 'f' :: 'n' :: ' ' :: rest =>
    let w := rest.takeWhile isWordChar
    if w = [] then none else some (String.mk w)
  | _ => none

/-- All captures of `(?m)^fn (\w+)` over a text, in source order
(`captures_iter` in the source). -/
def extractEntryPoints (s : String) : List String :=
  (splitLines s.data).filterMap captureFn

/-- Pure core of `App::update_entry_points` (src/main.rs lines 57-71): regex
captures over the unoptimized IR, falling back to the single-element list
`["main"]` when there is no match, and resetting the selected index to 0
when it is out of range for the new list. -/
def compute_entry_points (unopt_ir : String) (selected_entry : Nat) :
    List String × Nat :=
  let matchList := extractEntryPoints unopt_ir
  let eps := if matchList = [] then ["main"] else matchList
  (eps, if eps.length ≤ selected_entry then 0 else selected_entry)

/-- `struct App` (src/main.rs lines 22-36). -/
structure AppState where
  code : String
  unopt_ir : String
  opt_ir : String
  delay_info : String
  error_message : Option String
  selected_tab : Nat
  dslx_stdlib_path : Option String
  tests_passed : Option Bool
  test_output : Option String
  entry_points : List String
  selected_entry : Nat
  file_path : Option String
  last_update : Option String
  deriving DecidableEq

/-- `App::new` (src/main.rs lines 39-55). -/
def App_new : AppState :=
  { code := "", unopt_ir := "", opt_ir := "", delay_info := "",
    error_message := none, selected_tab := 0, dslx_stdlib_path := none,
    tests_passed := none, test_output := none, entry_points := [],
    selected_entry := 0, file_path := none, last_update := none }

/-- `App::update_entry_points` (src/main.rs lines 57-71). -/
def update_entry_points (app : AppState) : AppState :=
  let ep := compute_entry_points app.unopt_ir app.selected_entry
  { app with entry_points := ep.1, selected_entry := ep.2 }

/-- Captured result of one external tool invocation: exit status, stdout and
stderr. -/
structure ToolOutcome where
  success : Bool
  stdout : String
  stderr : String
  deriving DecidableEq

/-- The behaviour of the external toolchain during one pipeline run:
the translator's outcome, the optimizer's outcome as a function of the
`--top` entry name it receives, the timing tool's outcome, whether the
interpreter binary exists on disk, and the interpreter's outcome. -/
structure ToolEnv where
  ir_converter : ToolOutcome
  opt : String → ToolOutcome
  delay : ToolOutcome
  interpreter_exists : Bool
  interpreter : ToolOutcome

/-- The four pipeline stages, used to record which external tools a run
invoked. -/
inductive Stage where
  | translate
  | optimize
  | analyze
  | test
  deriving DecidableEq

/-- `App::run_conversion` (src/main.rs lines 73-173), transcribed branch by
branch.  Returns the new state and the list of stages whose external tool
was invoked.  Note that the source sets `tests_passed = Some(false)` at the
very beginning of the method (line 74). -/
def run_conversion (env : ToolEnv) (app0 : AppState) : AppState × List Stage :=
  let app := { app0 with tests_passed := some false }
  let ir_conv_output := env.ir_converter
  if ir_conv_output.success = false then
    ({ app with
        error_message := some ("ir_converter_main: " ++ ir_conv_output.stderr),
        tests_passed := some false },
      [Stage.translate])
  else
    let app := { app with error_message := none,
                          unopt_ir := ir_conv_output.stdout }
    let app := update_entry_points app
    let entry_name := app.entry_points.getD app.selected_entry ("")
    let opt_output := env.opt entry_name
    if opt_output.success = false then
      ({ app with
          error_message := some ("opt_main: " ++ opt_output.stderr),
          tests_passed := some false },
        [Stage.translate, Stage.optimize])
    else
      let app := { app with error_message := none,
                            opt_ir := opt_output.stdout }
      let delay_output := env.delay
      if delay_output.success = false then
        ({ app with
            error_message := some ("delay_info_main: " ++ delay_output.stderr),
            tests_passed := some false },
          [Stage.translate, Stage.optimize, Stage.analyze])
      else
        let app := { app with error_message := none,
                              delay_info := delay_output.stdout }
        if env.interpreter_exists then
          let interpreter_output := env.interpreter
          if interpreter_output.success then
            ({ app with
                tests_passed := some true,
                test_output := some (if interpreter_output.stdout = "" then
                    interpreter_output.stderr
                  else interpreter_output.stdout) },
              [Stage.translate, Stage.optimize, Stage.analyze, Stage.test])
          else
            ({ app with
                error_message :=
                  some ("dslx_interpreter_main: " ++ interpreter_output.stderr),
                tests_passed := some false },
              [Stage.translate, Stage.optimize, Stage.analyze, Stage.test])
        else (app, [Stage.translate, Stage.optimize, Stage.analyze])

/-- `App::check_and_run_conversion` (src/main.rs lines 175-178). -/
def check_and_run_conversion (env : ToolEnv) (app : AppState) :
    AppState × List Stage :=
  run_conversion env (update_entry_points app)

/-- One event processed by the loop in `main` (src/main.rs lines 366-414):
a file-change notification of kind Modify (carrying the newly read file
content and the formatted timestamp), or one keyboard event.  Events that
trigger a pipeline run carry the `ToolEnv` describing the external tools'
behaviour for that run. -/
inductive Event where
  | fileModify (newCode : String) (time : String) (env : ToolEnv)
  | keyTab
  | keyCtrlU
  | keyCtrlO
  | keyCtrlD
  | keyLeft (env : ToolEnv)
  | keyRight (env : ToolEnv)
  | keyOther

/-- The state transition performed for one event by the loop body in `main`
(src/main.rs lines 366-414), together with the stages invoked while
handling it (`[]` when no pipeline run happens).  `q` and Escape break the
loop without touching the state and are subsumed by `keyOther`. -/
def step : Event → AppState → AppState × List Stage
  | Event.fileModify c t env, app =>
    check_and_run_conversion env { app with code := c, last_update := some t }
  | Event.keyTab, app => ({ app with selected_tab := (app.selected_tab + 1) % 3 }, [])
  | Event.keyCtrlU, app => ({ app with selected_tab := 0 }, [])
  | Event.keyCtrlO, app => ({ app with selected_tab := 1 }, [])
  | Event.keyCtrlD, app => ({ app with selected_tab := 2 }, [])
  | Event.keyLeft env, app =>
    if 0 < app.selected_entry then
      check_and_run_conversion env
        { app with selected_entry := app.selected_entry - 1 }
    else (app, [])
  | Event.keyRight env, app =>
    if app.selected_entry < app.entry_points.length - 1 then
      check_and_run_conversion env
        { app with selected_entry := app.selected_entry + 1 }
    else (app, [])
  | Event.keyOther, app => (app, [])

/-- The state reached by processing a list of events in order. -/
def runEvents (s : AppState) (es : List Event) : AppState :=
  es.foldl (fun a e => (step e a).1) s

/-- The state with which `main` enters the event loop (src/main.rs lines
228-232): a fresh `App`, stdlib path and file path installed, the watched
file's content read into `code`, then `check_and_run_conversion` with the
toolchain behaviour `env0` of that first run. -/
def initState (code : String) (stdlib : Option String) (fp : String)
    (env0 : ToolEnv) : AppState :=
  (check_and_run_conversion env0
    { App_new with code := code, dslx_stdlib_path := stdlib,
                   file_path := some fp }).1

/-- The binaries whose presence `main` validates before the loop starts
(src/main.rs line 207). -/
def required_binaries : List String :=
  ["ir_converter_main", "opt_main", "delay_info_main"]

/-- Startup validation (src/main.rs lines 206-216): `true` exactly when the
program does not panic, i.e. every required binary is present in the tools
directory (membership test abstracted by the predicate `present`). -/
def startup_ok (present : String → Bool) : Bool :=
  required_binaries.all present

/- Concrete toolchain behaviours used by witnesses and counterexamples. -/

/-- A successful tool invocation with empty stdout and stderr. -/
def okOutcome : ToolOutcome := { success := true, stdout := "", stderr := "" }

/-- All four tools succeed; the interpreter exists and prints `ok`. -/
def envAllOK : ToolEnv :=
  { ir_converter := okOutcome, opt := fun _ => okOutcome, delay := okOutcome,
    interpreter_exists := true,
    interpreter := { success := true, stdout := "ok", stderr := "" } }

/-- The translator exits non-zero with stderr `parse error: line 3`. -/
def envTranslateFail : ToolEnv :=
  { ir_converter :=
      { success := false, stdout := "", stderr := "parse error: line 3" },
    opt := fun _ => okOutcome, delay := okOutcome,
    interpreter_exists := false, interpreter := okOutcome }

/-- Translate and optimize succeed, the timing tool exits non-zero with
stderr `boom`. -/
def envAnalyzeFail : ToolEnv :=
  { ir_converter := okOutcome, opt := fun _ => okOutcome,
    delay := { success := false, stdout := "", stderr := "boom" },
    interpreter_exists := true, interpreter := okOutcome }

/-- Translate, optimize and analyze succeed; the interpreter binary is
absent from the tools directory. -/
def envNoInterp : ToolEnv :=
  { ir_converter := okOutcome, opt := fun _ => okOutcome, delay := okOutcome,
    interpreter_exists := false, interpreter := okOutcome }

/-- A tools directory containing exactly the three binaries that `main`
validates, and in particular not the interpreter. -/
def presentThree : String → Bool := fun b => required_binaries.contains b

/- Invariant infrastructure. -/

/-- The entry-point selection invariant: the entry-point list is non-empty
and the selected index is in range. -/
def INV (s : AppState) : Prop :=
  s.entry_points ≠ [] ∧ s.selected_entry < s.entry_points.length

theorem clamp_lt (eps : List String) (sel : Nat) (h : eps ≠ []) :
    (if eps.length ≤ sel then 0 else sel) < eps.length := by
  have := List.length_pos.mpr h
  split <;> omega

theorem compute_entry_points_ne (unopt_ir : String) (sel : Nat) :
    (compute_entry_points unopt_ir sel).1 ≠ [] := by
  unfold compute_entry_points
  by_cases h : extractEntryPoints unopt_ir = [] <;> simp [h]

theorem compute_entry_points_sound (unopt_ir : String) (sel : Nat) :
    (compute_entry_points unopt_ir sel).1 ≠ [] ∧
      (compute_entry_points unopt_ir sel).2
        < (compute_entry_points unopt_ir sel).1.length :=
  ⟨compute_entry_points_ne unopt_ir sel,
    clamp_lt _ _ (compute_entry_points_ne unopt_ir sel)⟩

theorem update_entry_points_inv (app : AppState) :
    INV (update_entry_points app) := by
  have h := compute_entry_points_sound app.unopt_ir app.selected_entry
  unfold update_entry_points INV
  exact h

theorem run_conversion_inv (env : ToolEnv) (app : AppState) (h : INV app) :
    INV (run_conversion env app).1 := by
  simp only [run_conversion]
  split_ifs <;>
    first
      | exact h
      | exact update_entry_points_inv _

theorem check_and_run_conversion_inv (env : ToolEnv) (app : AppState) :
    INV (check_and_run_conversion env app).1 :=
  run_conversion_inv env _ (update_entry_points_inv app)

theorem step_inv (e : Event) (s : AppState) (h : INV s) : INV (step e s).1 := by
  cases e with
  | fileModify c t env => exact check_and_run_conversion_inv env _
  | keyTab => exact h
  | keyCtrlU => exact h
  | keyCtrlO => exact h
  | keyCtrlD => exact h
  | keyLeft env =>
    by_cases hs : 0 < s.selected_entry
    · simpa [step, hs] using check_and_run_conversion_inv env
        { s with selected_entry := s.selected_entry - 1 }
    · simpa [step, hs] using h
  | keyRight env =>
    by_cases hs : s.selected_entry < s.entry_points.length - 1
    · simpa [step, hs] using check_and_run_conversion_inv env
        { s with selected_entry := s.selected_entry + 1 }
    · simpa [step, hs] using h
  | keyOther => exact h

theorem runEvents_pres (P : AppState → Prop)
    (hstep : ∀ e s, P s → P (step e s).1) :
    ∀ (es : List Event) (s : AppState), P s → P (runEvents s es) := by
  intro es
  induction es with
  | nil => intro s h; exact h
  | cons e es ih => intro s h; exact ih _ (hstep e s h)

theorem initState_inv (code : String) (stdlib : Option String) (fp : String)
    (env0 : ToolEnv) : INV (initState code stdlib fp env0) :=
  check_and_run_conversion_inv env0 _

theorem reachable_inv (code : String) (stdlib : Option String) (fp : String)
    (env0 : ToolEnv) (es : List Event) :
    INV (runEvents (initState code stdlib fp env0) es) :=
  runEvents_pres INV step_inv es _ (initState_inv code stdlib fp env0)

/- `App::update_entry_points` touches only the two entry-selection fields;
all other fields project through it unchanged. -/

theorem update_entry_points_code (app : AppState) :
    (update_entry_points app).code = app.code := rfl

theorem update_entry_points_unopt_ir (app : AppState) :
    (update_entry_points app).unopt_ir = app.unopt_ir := rfl

theorem update_entry_points_opt_ir (app : AppState) :
    (update_entry_points app).opt_ir = app.opt_ir := rfl

theorem update_entry_points_delay_info (app : AppState) :
    (update_entry_points app).delay_info = app.delay_info := rfl

theorem update_entry_points_error_message (app : AppState) :
    (update_entry_points app).error_message = app.error_message := rfl

theorem update_entry_points_tests_passed (app : AppState) :
    (update_entry_points app).tests_passed = app.tests_passed := rfl

theorem update_entry_points_test_output (app : AppState) :
    (update_entry_points app).test_output = app.test_output := rfl

theorem update_entry_points_entry_points (app : AppState) :
    (update_entry_points app).entry_points
      = (compute_entry_points app.unopt_ir app.selected_entry).1 := rfl

theorem update_entry_points_selected_entry (app : AppState) :
    (update_entry_points app).selected_entry
      = (compute_entry_points app.unopt_ir app.selected_entry).2 := rfl

/-- The property that actually holds of the test-output field: it is
present whenever the test outcome is `some true`.  (The converse fails: the
source never clears `test_output`.) -/
def TestOutputInv (s : AppState) : Prop :=
  s.tests_passed = some true → s.test_output.isSome = true

theorem run_conversion_test_output (env : ToolEnv) (app : AppState) :
    TestOutputInv (run_conversion env app).1 := by
  simp only [run_conversion]
  split_ifs <;> intro hp <;>
    simp_all [update_entry_points_tests_passed, update_entry_points_test_output]

theorem check_and_run_conversion_test_output (env : ToolEnv) (app : AppState) :
    TestOutputInv (check_and_run_conversion env app).1 :=
  run_conversion_test_output env _

theorem step_test_output (e : Event) (s : AppState) (h : TestOutputInv s) :
    TestOutputInv (step e s).1 := by
  cases e with
  | fileModify c t env => exact check_and_run_conversion_test_output env _
  | keyTab => exact h
  | keyCtrlU => exact h
  | keyCtrlO => exact h
  | keyCtrlD => exact h
  | keyLeft env =>
    by_cases hs : 0 < s.selected_entry
    · simpa [step, hs] using check_and_run_conversion_test_output env
        { s with selected_entry := s.selected_entry - 1 }
    · simpa [step, hs] using h
  | keyRight env =>
    by_cases hs : s.selected_entry < s.entry_points.length - 1
    · simpa [step, hs] using check_and_run_conversion_test_output env
        { s with selected_entry := s.selected_entry + 1 }
    · simpa [step, hs] using h
  | keyOther => exact h

theorem compute_entry_points_reset (unopt_ir : String) (sel : Nat)
    (h : (compute_entry_points unopt_ir sel).1.length ≤ sel) :
    (compute_entry_points unopt_ir sel).2 = 0 := by
  show (if (compute_entry_points unopt_ir sel).1.length ≤ sel then 0 else sel) = 0
  exact if_pos h

/-- C3: for every artifact text in which no line matches the top-level
function-declaration pattern (literal `fn`, space, then a word-character
identifier at the start of a line), entry-point extraction yields exactly
the single-element list containing the fixed fallback name `main`. -/
theorem claim_C3 (app : AppState)
    (h : ∀ line ∈ splitLines app.unopt_ir.data, captureFn line = none) :
    (update_entry_points app).entry_points = ["main"] := by
  have hm : extractEntryPoints app.unopt_ir = [] := by
    unfold extractEntryPoints
    exact List.filterMap_eq_nil_iff.mpr h
  simp [update_entry_points_entry_points, compute_entry_points, hm]

theorem claim_C3_witness :
    (update_entry_points { App_new with unopt_ir := "x\ny" }).entry_points
      = ["main"] :=
  claim_C3 { App_new with unopt_ir := "x\ny" } (by decide)

/-- C4: for every artifact text in which at least one line matches the
top-level function-declaration pattern, entry-point extraction yields
exactly the captured identifiers, one per matching line, in source order.
Indented declarations do not count, since `captureFn` is anchored at the
start of a line. -/
theorem claim_C4 (app : AppState)
    (h : (splitLines app.unopt_ir.data).filterMap captureFn ≠ []) :
    (update_entry_points app).entry_points
      = (splitLines app.unopt_ir.data).filterMap captureFn := by
  have hm : extractEntryPoints app.unopt_ir ≠ [] := h
  rw [update_entry_points_entry_points]
  show (if extractEntryPoints app.unopt_ir = [] then ["main"]
      else extractEntryPoints app.unopt_ir)
    = (splitLines app.unopt_ir.data).filterMap captureFn
  rw [if_neg hm]
  rfl

theorem claim_C4_witness :
    (update_entry_points { App_new with unopt_ir := "fn a\nfn b" }).entry_points
        = (splitLines ("fn a\nfn b").data).filterMap captureFn ∧
      (splitLines ("fn a\nfn b").data).filterMap captureFn = ["a", "b"] :=
  ⟨claim_C4 { App_new with unopt_ir := "fn a\nfn b" } (by decide), by decide⟩

/-- C5: every state reachable by the event loop (the startup run followed by
any sequence of file-change and keyboard events) has a non-empty entry-point
list and a selected index strictly below its length; and whenever
recomputation produces a list no longer than the currently selected index,
the index is reset to 0. -/
theorem claim_C5 :
    (∀ (code fp : String) (stdlib : Option String) (env0 : ToolEnv)
        (es : List Event),
        (runEvents (initState code stdlib fp env0) es).entry_points ≠ [] ∧
          (runEvents (initState code stdlib fp env0) es).selected_entry
            < (runEvents (initState code stdlib fp env0) es).entry_points.length) ∧
      (∀ app : AppState,
        (update_entry_points app).entry_points.length ≤ app.selected_entry →
          (update_entry_points app).selected_entry = 0) := by
  constructor
  · intro code fp stdlib env0 es
    exact reachable_inv code stdlib fp env0 es
  · intro app h
    rw [update_entry_points_entry_points] at h
    rw [update_entry_points_selected_entry]
    exact compute_entry_points_reset _ _ h

theorem claim_C5_witness :
    ((runEvents (initState ("") none ("f.x") envAllOK) []).entry_points ≠ [] ∧
        (runEvents (initState ("") none ("f.x") envAllOK) []).selected_entry
          < (runEvents (initState ("") none ("f.x") envAllOK)
              []).entry_points.length) ∧
      (update_entry_points { App_new with selected_entry := 5 }).selected_entry
        = 0 :=
  ⟨claim_C5.1 ("") ("f.x") none envAllOK [],
    claim_C5.2 { App_new with selected_entry := 5 } (by decide)⟩

/-- C6: a left-navigation key at selected index 0, and a right-navigation
key at the last index of the entry-point list, leave the state unchanged
and invoke no pipeline stage. -/
theorem claim_C6 (env : ToolEnv) (app : AppState) :
    (app.selected_entry = 0 → step (Event.keyLeft env) app = (app, [])) ∧
      (app.entry_points ≠ [] →
        app.selected_entry = app.entry_points.length - 1 →
          step (Event.keyRight env) app = (app, [])) := by
  constructor
  · intro h
    simp [step, h]
  · intro hne h
    simp [step, h]

def appC6 : AppState :=
  { App_new with entry_points := ["main"], selected_entry := 0 }

theorem claim_C6_witness :
    step (Event.keyLeft envAllOK) appC6 = (appC6, []) ∧
      step (Event.keyRight envAllOK) appC6 = (appC6, []) :=
  ⟨(claim_C6 envAllOK appC6).1 rfl,
    (claim_C6 envAllOK appC6).2 (by decide) rfl⟩

/-- C10: no loop operation can index out of range on the entry-point list.
First, every reachable state has a non-empty entry-point list, so the
right-navigation guard `entry_points.len() - 1` is never evaluated on an
empty list.  Second, immediately after the recomputation that precedes the
read `entry_points[selected_entry]` in `run_conversion`, the index is
strictly below the list's length, so the read is in bounds. -/
theorem claim_C10 :
    (∀ (code fp : String) (stdlib : Option String) (env0 : ToolEnv)
        (es : List Event),
        (runEvents (initState code stdlib fp env0) es).entry_points ≠ []) ∧
      (∀ app : AppState,
        (update_entry_points app).selected_entry
          < (update_entry_points app).entry_points.length) := by
  constructor
  · intro code fp stdlib env0 es
    exact (reachable_inv code stdlib fp env0 es).1
  · intro app
    exact (update_entry_points_inv app).2

theorem claim_C10_witness :
    (runEvents (initState ("") none ("f.x") envAllOK) []).entry_points ≠ [] ∧
      (update_entry_points App_new).selected_entry
        < (update_entry_points App_new).entry_points.length :=
  ⟨claim_C10.1 ("") ("f.x") none envAllOK [], claim_C10.2 App_new⟩

/-- The `--top` entry name that a run passes to the optimizer after a
successful translate: the element of the freshly recomputed entry-point
list at the freshly clamped index (src/main.rs line 103). -/
def entry_name_of (env : ToolEnv) (app : AppState) : String :=
  let ep := compute_entry_points env.ir_converter.stdout app.selected_entry
  ep.1.getD ep.2 ("")

/-- C1 (amended): after a pipeline run fails at the analyze stage, the
unoptimized and optimized artifacts equal the outputs of that run's
translate and optimize stages, the timing report keeps its pre-run value,
the last-error field is set to `delay_info_main: ` followed by the timing
tool's stderr, and the test-outcome field is `some false` -- not its pre-run
value, because `run_conversion` overwrites it with `Some(false)` at the
start of every run (src/main.rs line 74). -/
theorem claim_C1 (env : ToolEnv) (app : AppState)
    (h1 : env.ir_converter.success = true)
    (h2 : (env.opt (entry_name_of env app)).success = true)
    (h3 : env.delay.success = false) :
    (run_conversion env app).1.unopt_ir = env.ir_converter.stdout ∧
      (run_conversion env app).1.opt_ir
        = (env.opt (entry_name_of env app)).stdout ∧
      (run_conversion env app).1.delay_info = app.delay_info ∧
      (run_conversion env app).1.error_message
        = some ("delay_info_main: " ++ env.delay.stderr) ∧
      (run_conversion env app).1.tests_passed = some false := by
  have h2' := h2
  simp [entry_name_of] at h2'
  simp [run_conversion, h1, h2', h3, entry_name_of,
    update_entry_points_entry_points, update_entry_points_selected_entry,
    update_entry_points_unopt_ir, update_entry_points_opt_ir,
    update_entry_points_delay_info, update_entry_points_error_message,
    update_entry_points_tests_passed]

theorem claim_C1_witness :
    (run_conversion envAnalyzeFail App_new).1.unopt_ir
        = envAnalyzeFail.ir_converter.stdout ∧
      (run_conversion envAnalyzeFail App_new).1.opt_ir
        = (envAnalyzeFail.opt (entry_name_of envAnalyzeFail App_new)).stdout ∧
      (run_conversion envAnalyzeFail App_new).1.delay_info
        = App_new.delay_info ∧
      (run_conversion envAnalyzeFail App_new).1.error_message
        = some ("delay_info_main: " ++ envAnalyzeFail.delay.stderr) ∧
      (run_conversion envAnalyzeFail App_new).1.tests_passed = some false :=
  claim_C1 envAnalyzeFail App_new rfl rfl rfl

theorem claim_C1_counterexample :
    envAnalyzeFail.ir_converter.success = true ∧
      (envAnalyzeFail.opt ("main")).success = true ∧
      envAnalyzeFail.delay.success = false ∧
      (initState ("") none ("f.x") envAllOK).tests_passed = some true ∧
      (run_conversion envAnalyzeFail
            (initState ("") none ("f.x") envAllOK)).1.tests_passed
        ≠ (initState ("") none ("f.x") envAllOK).tests_passed := by
  decide

/-- C2 (amended): when the translator exits non-zero with stderr `M`, the
run stops after the translate stage, the artifact fields keep their pre-run
values, and the last-error field is set to `ir_converter_main: ` (the
translator binary's name, not the stage name `translate`) followed by `M`. -/
theorem claim_C2 (env : ToolEnv) (app : AppState)
    (h : env.ir_converter.success = false) :
    run_conversion env app
      = ({ app with
            error_message :=
              some ("ir_converter_main: " ++ env.ir_converter.stderr),
            tests_passed := some false },
          [Stage.translate]) := by
  simp [run_conversion, h]

theorem claim_C2_witness :
    run_conversion envTranslateFail App_new
      = ({ App_new with
            error_message :=
              some ("ir_converter_main: "
                ++ envTranslateFail.ir_converter.stderr),
            tests_passed := some false },
          [Stage.translate]) :=
  claim_C2 envTranslateFail App_new rfl

theorem claim_C2_counterexample :
    envTranslateFail.ir_converter.success = false ∧
      envTranslateFail.ir_converter.stderr = ("parse error: line 3") ∧
      (run_conversion envTranslateFail App_new).1.error_message
        = some ("ir_converter_main: parse error: line 3") ∧
      (run_conversion envTranslateFail App_new).1.error_message
        ≠ some ("translate: parse error: line 3") := by
  decide

/-- C7 (amended): at every reachable (hence rendered) state, if the
test-outcome field is `some true` then the test-output field is present.
Only this direction holds: the source never clears `test_output`, so after
a passing run followed by a failing run the output text is still present
while the outcome is `some false`. -/
theorem claim_C7 (code fp : String) (stdlib : Option String) (env0 : ToolEnv)
    (es : List Event)
    (h : (runEvents (initState code stdlib fp env0) es).tests_passed
        = some true) :
    (runEvents (initState code stdlib fp env0) es).test_output.isSome
      = true :=
  runEvents_pres TestOutputInv step_test_output es _
    (check_and_run_conversion_test_output env0 _) h

theorem claim_C7_witness :
    (runEvents (initState ("") none ("f.x") envAllOK) []).test_output.isSome
      = true :=
  claim_C7 ("") ("f.x") none envAllOK [] (by decide)

theorem claim_C7_counterexample :
    (runEvents (initState ("") none ("f.x") envAllOK)
          [Event.fileModify ("") ("t") envTranslateFail]).test_output.isSome
        = true ∧
      (runEvents (initState ("") none ("f.x") envAllOK)
          [Event.fileModify ("") ("t") envTranslateFail]).tests_passed
        ≠ some true := by
  decide

/-- C8 (amended): when the interpreter binary is absent and the translate,
optimize and analyze stages all succeed, the run leaves the test-outcome
field equal to `some false` -- not `None` -- because `run_conversion` sets it
to `Some(false)` at the start and the skipped test stage never resets it. -/
theorem claim_C8 (env : ToolEnv) (app : AppState)
    (h1 : env.ir_converter.success = true)
    (h2 : ∀ n, (env.opt n).success = true)
    (h3 : env.delay.success = true)
    (h4 : env.interpreter_exists = false) :
    (run_conversion env app).1.tests_passed = some false := by
  simp [run_conversion, h1, h2, h3, h4, update_entry_points_tests_passed]

theorem claim_C8_witness :
    (run_conversion envNoInterp App_new).1.tests_passed = some false :=
  claim_C8 envNoInterp App_new rfl (fun _ => rfl) rfl rfl

theorem claim_C8_counterexample :
    envNoInterp.ir_converter.success = true ∧
      (envNoInterp.opt ("main")).success = true ∧
      envNoInterp.delay.success = true ∧
      envNoInterp.interpreter_exists = false ∧
      (run_conversion envNoInterp App_new).1.tests_passed ≠ none := by
  decide

/-- C9 (amended): startup validation succeeds exactly when the translator,
optimizer and timing-analysis binaries are present; the interpreter binary
is not among the validated ones, so its absence does not make startup fail.
(src/main.rs line 207 lists only three required binaries.) -/
theorem claim_C9 :
    (∀ present : String → Bool,
        startup_ok present = true ↔
          (present ("ir_converter_main") = true ∧
            present ("opt_main") = true ∧
            present ("delay_info_main") = true)) ∧
      required_binaries.contains ("dslx_interpreter_main") = false := by
  constructor
  · intro present
    simp [startup_ok, required_binaries]
  · decide

theorem claim_C9_witness :
    startup_ok presentThree = true ∧
      presentThree ("dslx_interpreter_main") = false :=
  ⟨(claim_C9.1 presentThree).mpr (by decide), by decide⟩

theorem claim_C9_counterexample :
    startup_ok presentThree = true ∧
      presentThree ("ir_converter_main") = true ∧
      presentThree ("opt_main") = true ∧
      presentThree ("delay_info_main") = true ∧
      presentThree ("dslx_interpreter_main") = false := by
  decide
